import Mathlib

/-!
Shallow embedding of the pyquotex_integration resilience layer
(configuration validation, exponential backoff, the connection state
machine of the client, the connection watchdog, and the async request
queue), together with theorems settling the specification claims.
Delays and payouts are modelled as rationals; every value used by the
concrete scenarios (1.0, 2.0, 300.0, ...) is exactly representable in
binary floating point and the operations involved (multiplication by
powers of two, min) are exact on them, so the rational model is faithful.
-/

namespace PyquotexIntegration

/-- Configuration record mirroring the fields of `QuotexConfig`
(src/pyquotex_integration/config.py, lines 8-37) that the verified
components read, with the dataclass defaults as default field values. -/
structure QuotexConfig where
  email : String := ""
  password : String := ""
  ping_interval : ℚ := 30
  ping_timeout : ℚ := 10
  reconnect_max_retries : ℕ := 10
  reconnect_base_delay : ℚ := 1
  reconnect_max_delay : ℚ := 300
  reconnect_exponential_base : ℚ := 2
  min_payout : ℚ := 80
  request_queue_maxsize : ℕ := 100
  callback_timeout : ℚ := 30
  dry_run : Bool := false
deriving DecidableEq, Repr

/-- The default configuration (all dataclass defaults; env vars unset). -/
def defaultConfig : QuotexConfig := {}

/-- `QuotexConfig.validate` (config.py lines 39-48): returns the message of
the first `ValueError` raised, or `.ok ()` when every check passes. -/
def QuotexConfig.validate (c : QuotexConfig) : Except String Unit :=
  if c.dry_run = false ∧ (c.email = "" ∨ c.password = "") then
    .error "Email and password are required when not in dry run mode"
  else if c.ping_interval ≤ 0 then
    .error "ping_interval must be positive"
  else if c.reconnect_base_delay ≤ 0 then
    .error "reconnect_base_delay must be positive"
  else if c.min_payout < 0 ∨ c.min_payout > 100 then
    .error "min_payout must be between 0 and 100"
  else
    .ok ()

/-- `ConnectionWatchdog._calculate_backoff_delay` (watchdog.py lines
193-206): `delay = reconnect_base_delay * reconnect_exponential_base **
retry_count`, then `min(delay, reconnect_max_delay)`. -/
def calculate_backoff_delay (c : QuotexConfig) (retry_count : ℕ) : ℚ :=
  let delay := c.reconnect_base_delay * c.reconnect_exponential_base ^ retry_count
  min delay c.reconnect_max_delay

/-- The BackoffPolicy delay exactly as the spec words it (spec section 4.2):
`delay(attempt) = min(base_delay * multiplier^attempt, max_delay)` with
`attempt` zero-based. -/
def spec_backoff_delay (c : QuotexConfig) (attempt : ℕ) : ℚ :=
  min (c.reconnect_base_delay * c.reconnect_exponential_base ^ attempt)
    c.reconnect_max_delay

/-- `ConnectionState` (client.py lines 12-17). -/
inductive ConnectionState
  | DISCONNECTED
  | CONNECTING
  | CONNECTED
  | RECONNECTING
deriving DecidableEq, Repr

/-- Outcome of the environment during one `PyQuotexClient.connect` call:
either the underlying `Session.connect` returns `(check, reason)`, or some
step of the `try` block raises. -/
inductive SessionConnectOutcome
  | ok
  | failed (reason : String)
  | exn (msg : String)
deriving DecidableEq, Repr

/-- Outcome of the environment during one `PyQuotexClient.ping` call in
non-dry-run mode: the balance fetch returns a value or `None`, times out,
or raises. -/
inductive SessionPingOutcome
  | balance
  | balanceNone
  | timedOut
  | exn (msg : String)
deriving DecidableEq, Repr

/-- Result of one `PyQuotexClient.connect` call: the final `_state`, the
returned boolean, whether `Session.connect` was invoked, and the sequence
of values assigned to `_state` during the call, in order. -/
structure ConnectCallResult where
  finalState : ConnectionState
  success : Bool
  sessionCalled : Bool
  assigned : List ConnectionState
deriving DecidableEq, Repr

namespace PyQuotexClient

/-- `PyQuotexClient.connect` (client.py lines 53-93), under the connection
lock. If `_state` is already `CONNECTED` it returns `True` at once without
touching the session; otherwise it assigns `CONNECTING`, runs the dry-run
simulation or `Session.connect`, and assigns `CONNECTED` (returning `True`)
on success or `DISCONNECTED` (returning `False`) on a failed check or an
exception. -/
def connect (s : ConnectionState) (dry_run : Bool)
    (outcome : SessionConnectOutcome) : ConnectCallResult :=
  if s = ConnectionState.CONNECTED then
    { finalState := s, success := true, sessionCalled := false, assigned := [] }
  else if dry_run then
    { finalState := ConnectionState.CONNECTED, success := true,
      sessionCalled := false,
      assigned := [ConnectionState.CONNECTING, ConnectionState.CONNECTED] }
  else
    match outcome with
    | SessionConnectOutcome.ok =>
        { finalState := ConnectionState.CONNECTED, success := true,
          sessionCalled := true,
          assigned := [ConnectionState.CONNECTING, ConnectionState.CONNECTED] }
    | SessionConnectOutcome.failed _ =>
        { finalState := ConnectionState.DISCONNECTED, success := false,
          sessionCalled := true,
          assigned := [ConnectionState.CONNECTING, ConnectionState.DISCONNECTED] }
    | SessionConnectOutcome.exn _ =>
        { finalState := ConnectionState.DISCONNECTED, success := false,
          sessionCalled := true,
          assigned := [ConnectionState.CONNECTING, ConnectionState.DISCONNECTED] }

/-- `PyQuotexClient.disconnect` (client.py lines 95-115): returns early when
already `DISCONNECTED`; otherwise assigns `DISCONNECTED` both on the normal
path and in the exception handler. The returned list is the sequence of
values assigned to `_state`. -/
def disconnect (s : ConnectionState) : ConnectionState × List ConnectionState :=
  if s = ConnectionState.DISCONNECTED then (s, [])
  else (ConnectionState.DISCONNECTED, [ConnectionState.DISCONNECTED])

/-- `PyQuotexClient.ping` (client.py lines 117-143): returns `False` at once
when not connected (no session call); otherwise delegates to the dry-run
simulation or the balance fetch, mapping a timeout or exception to `False`.
It never assigns `_state`. Result: (returned boolean, session pinged). -/
def ping (s : ConnectionState) (dry_run : Bool)
    (outcome : SessionPingOutcome) : Bool × Bool :=
  if s ≠ ConnectionState.CONNECTED then (false, false)
  else if dry_run then (true, false)
  else
    match outcome with
    | SessionPingOutcome.balance => (true, true)
    | SessionPingOutcome.balanceNone => (false, true)
    | SessionPingOutcome.timedOut => (false, true)
    | SessionPingOutcome.exn _ => (false, true)

end PyQuotexClient

/-- One public client operation together with the environment behaviour it
encounters. -/
inductive ClientOp
  | connect (dry_run : Bool) (outcome : SessionConnectOutcome)
  | disconnect
  | ping (dry_run : Bool) (outcome : SessionPingOutcome)
deriving DecidableEq, Repr

/-- The final `_state` and the list of `_state` assignments of one client
operation applied in state `s`. -/
def applyClientOp (s : ConnectionState) : ClientOp → ConnectionState × List ConnectionState
  | ClientOp.connect dry_run outcome =>
      let r := PyQuotexClient.connect s dry_run outcome
      (r.finalState, r.assigned)
  | ClientOp.disconnect => PyQuotexClient.disconnect s
  | ClientOp.ping _ _ => (s, [])

/-- Run a sequence of client operations from state `s`; returns the final
state. -/
def runClientOps (s : ConnectionState) : List ClientOp → ConnectionState
  | [] => s
  | op :: rest => runClientOps (applyClientOp s op).1 rest

/-- Every value `_state` ever holds while running `ops` from `s`: the
initial state followed by every assignment made by any operation. -/
def clientStatesVisited (s : ConnectionState) : List ClientOp → List ConnectionState
  | [] => [s]
  | op :: rest =>
      s :: ((applyClientOp s op).2 ++
        clientStatesVisited (applyClientOp s op).1 rest)

/-- The statistics fields of `ConnectionWatchdog` (watchdog.py lines 38-43)
that the verified claims read, plus the `_running` flag. -/
structure WatchdogState where
  running : Bool := true
  consecutive_failures : ℕ := 0
  total_reconnects : ℕ := 0
deriving DecidableEq, Repr

/-- The retry loop of `ConnectionWatchdog._handle_disconnect` (watchdog.py
lines 141-187), with the monitor running throughout. `connectOk i` is the
environment outcome of the connect call on retry `i`; `false` covers both a
`False` return and an exception, which the code treats alike by
incrementing `retry_count`. `fuel` is the number of loop iterations left,
`rc` the current `retry_count`. Returns the backoff delays slept before
each connect attempt (in order), the final `retry_count`, and whether some
attempt succeeded (in which case the loop returns at once, so `retry_count`
is not incremented). -/
def reconnectAttempts (c : QuotexConfig) (connectOk : ℕ → Bool) :
    ℕ → ℕ → List ℚ × ℕ × Bool
  | rc, 0 => ([], rc, false)
  | rc, fuel + 1 =>
      let d := calculate_backoff_delay c rc
      if connectOk rc then ([d], rc, true)
      else
        let r := reconnectAttempts c connectOk (rc + 1) fuel
        (d :: r.1, r.2.1, r.2.2)

/-- `ConnectionWatchdog._handle_disconnect` run from `retry_count = 0`, with
loop bound `reconnect_max_retries` (the loop guard is
`retry_count < reconnect_max_retries`). -/
def handle_disconnect (c : QuotexConfig) (connectOk : ℕ → Bool) :
    List ℚ × ℕ × Bool :=
  reconnectAttempts c connectOk 0 c.reconnect_max_retries

/-- Whether `_handle_disconnect` logs reconnect exhaustion: the final
`retry_count >= reconnect_max_retries` check at watchdog.py lines 188-191,
reached only when no attempt succeeded (success returns from inside the
loop). -/
def exhaustionReported (c : QuotexConfig) (connectOk : ℕ → Bool) : Bool :=
  let r := handle_disconnect c connectOk
  !r.2.2 && decide (c.reconnect_max_retries ≤ r.2.1)

/-- One event observed by the watchdog task: a monitor tick whose probe
succeeds or fails (a failing probe runs the reconnection sequence with the
given connect outcomes), a `force_reconnect` call with the given overall
outcome, or an exception caught by the monitor loop handler (watchdog.py
lines 117-119). -/
inductive WatchdogEvent
  | probe (ok : Bool) (connectOk : ℕ → Bool)
  | force (ok : Bool)
  | loopError

/-- The effect of one watchdog event on the statistics, transcribed from
`_monitor_loop` (watchdog.py lines 87-119), `_handle_disconnect` (lines
137-191) and `force_reconnect` (lines 208-239). On a successful probe the
code assigns 0 only when `consecutive_failures > 0`, which leaves the value
0 in every case, modelled directly as an assignment. -/
def applyWatchdogEvent (c : QuotexConfig) (st : WatchdogState) :
    WatchdogEvent → WatchdogState
  | WatchdogEvent.probe true _ => { st with consecutive_failures := 0 }
  | WatchdogEvent.probe false connectOk =>
      let st1 := { st with consecutive_failures := st.consecutive_failures + 1 }
      if (handle_disconnect c connectOk).2.2 then
        { st1 with consecutive_failures := 0,
                   total_reconnects := st1.total_reconnects + 1 }
      else st1
  | WatchdogEvent.force true =>
      { st with consecutive_failures := 0,
                total_reconnects := st.total_reconnects + 1 }
  | WatchdogEvent.force false => st
  | WatchdogEvent.loopError => st

/-- The events after which the code assigns `consecutive_failures := 0`: a
successful probe, a failing probe whose reconnection sequence succeeds, or
a successful forced reconnect. -/
def eventResets (c : QuotexConfig) : WatchdogEvent → Bool
  | WatchdogEvent.probe true _ => true
  | WatchdogEvent.probe false connectOk => (handle_disconnect c connectOk).2.2
  | WatchdogEvent.force ok => ok
  | WatchdogEvent.loopError => false

/-- `n` consecutive monitor ticks whose probe fails and whose reconnection
attempts all fail. -/
def runFailingProbes (c : QuotexConfig) (st : WatchdogState) : ℕ → WatchdogState
  | 0 => st
  | n + 1 =>
      runFailingProbes c
        (applyWatchdogEvent c st (WatchdogEvent.probe false (fun _ => false))) n

theorem reconnectAttempts_allFail_success (c : QuotexConfig) :
    ∀ (fuel rc : ℕ),
      (reconnectAttempts c (fun _ => false) rc fuel).2.2 = false := by
  intro fuel
  induction fuel with
  | zero => intro rc; rfl
  | succ n ih => intro rc; simpa [reconnectAttempts] using ih (rc + 1)

/-- `RequestType` (async_queue.py lines 15-23). -/
inductive RequestType
  | GET_CANDLES
  | SUBSCRIBE_CANDLES
  | UNSUBSCRIBE_CANDLES
  | PLACE_TRADE
  | PLACE_TRADE_AND_WAIT
  | GET_BALANCE
  | GET_ASSETS
deriving DecidableEq, Repr

/-- `Request` (async_queue.py lines 26-37), keeping the fields the claims
read: the generated id, the type, and whether a callback and a result
future were attached. Parameters and timestamps are omitted as inert. -/
structure Request where
  request_id : String
  request_type : RequestType := RequestType.GET_BALANCE
  has_callback : Bool := false
  has_future : Bool := false
deriving DecidableEq, Repr

/-- `Response` (async_queue.py lines 40-52) with the payload rendered as an
opaque string. -/
structure Response where
  request_id : String
  request_type : RequestType
  success : Bool
  data : Option String := none
  error : Option String := none
deriving DecidableEq, Repr

/-- Environment outcome of the client call made for one request inside
`_process_request`: the returned data, or the message of the exception
raised. -/
abbrev OpOutcome := Except String String

/-- `AsyncRequestQueue._process_request` (async_queue.py lines 371-448):
every request type dispatches to one client call; a returned value yields a
success `Response` carrying it, and any exception is caught and yields a
failure `Response` with `error = str(e)`. The `else` branch for an unknown
request type is unreachable because the dispatch covers all seven members
of `RequestType`. -/
def process_request (r : Request) (outcome : OpOutcome) : Response :=
  match outcome with
  | Except.ok d =>
      { request_id := r.request_id, request_type := r.request_type,
        success := true, data := some d }
  | Except.error e =>
      { request_id := r.request_id, request_type := r.request_type,
        success := false, error := some e }

/-- Environment behaviour of the `await asyncio.wait_for(future, ...)` in
`submit_request` when waiting: either the future resolves with a response
before `callback_timeout`, or the wait times out. -/
inductive ResultWait
  | resolved (r : Response)
  | timedOut
deriving DecidableEq, Repr

/-- `AsyncRequestQueue.submit_request` (async_queue.py lines 131-190).
`enqueueTimedOut` is whether the 1-second `wait_for` around `queue.put`
raised `asyncio.TimeoutError`. The single `except asyncio.TimeoutError`
handler at lines 178-187 covers both the enqueue wait and the result wait:
when waiting it returns a synthetic failed `Response` with
`error = "Queue full"`, and when not waiting it re-raises. The result is
`.error` for a raised `TimeoutError`, otherwise the request id
(`Sum.inl`) or the returned `Response` (`Sum.inr`). -/
def submit_request (req_id : String) (rt : RequestType)
    (wait_for_response : Bool) (enqueueTimedOut : Bool) (rw : ResultWait) :
    Except String (String ⊕ Response) :=
  if enqueueTimedOut then
    if wait_for_response then
      Except.ok (Sum.inr
        { request_id := req_id, request_type := rt, success := false,
          error := some "Queue full" })
    else
      Except.error "TimeoutError"
  else
    if wait_for_response then
      match rw with
      | ResultWait.resolved resp => Except.ok (Sum.inr resp)
      | ResultWait.timedOut =>
          Except.ok (Sum.inr
            { request_id := req_id, request_type := rt, success := false,
              error := some "Queue full" })
    else
      Except.ok (Sum.inl req_id)

/-- The state of one `AsyncRequestQueue` visible to the claims: the
`_running` flag, the pending FIFO queue, both counters, the ids of the
requests accepted by `queue.put`, and the responses produced by workers (in
production order; each is delivered to the request callback and/or future
when present). -/
structure QueueState where
  running : Bool := false
  queue : List Request := []
  processed_count : ℕ := 0
  failed_count : ℕ := 0
  accepted : List String := []
  responses : List Response := []
deriving DecidableEq, Repr

/-- The initial state of a fresh `AsyncRequestQueue` (async_queue.py lines
61-79): not running, empty queue, zero counters. -/
def initialQueueState : QueueState := {}

/-- One event of a queue execution: `start`/`stop` (async_queue.py lines
102-129), an `enqueue` by `submit_request` (accepted when the bounded queue
has space), or one uninterrupted pass of a worker over the head request
(async_queue.py lines 333-359) with the given client-call outcome and
whether the request callback raised. -/
inductive QueueEvent
  | start
  | stop
  | enqueue (r : Request)
  | workerStep (outcome : OpOutcome) (callbackRaises : Bool)
deriving Repr

/-- The effect of one queue event, transcribed from async_queue.py. A
worker runs only while `_running` is true (`stop` cancels all workers and
`start` spawns them); callback exceptions are caught at lines 353-354 and
touch nothing; the counters are updated from `response.success` before the
callback runs; the future, when present, receives the same single
response. -/
def applyQueueEvent (c : QuotexConfig) (st : QueueState) :
    QueueEvent → QueueState
  | QueueEvent.start => { st with running := true }
  | QueueEvent.stop => { st with running := false }
  | QueueEvent.enqueue r =>
      if st.queue.length < c.request_queue_maxsize then
        { st with queue := st.queue ++ [r],
                  accepted := st.accepted ++ [r.request_id] }
      else st
  | QueueEvent.workerStep outcome _ =>
      if st.running then
        match st.queue with
        | [] => st
        | r :: rest =>
            let resp := process_request r outcome
            { st with
              queue := rest,
              processed_count :=
                if resp.success then st.processed_count + 1
                else st.processed_count,
              failed_count :=
                if resp.success then st.failed_count
                else st.failed_count + 1,
              responses := st.responses ++ [resp] }
      else st

/-- Run a sequence of queue events. -/
def runQueue (c : QuotexConfig) (st : QueueState) : List QueueEvent → QueueState
  | [] => st
  | e :: rest => runQueue c (applyQueueEvent c st e) rest

/-- `ConnectionWatchdog._check_connection` (watchdog.py lines 121-135):
returns `False` at once when the client state is not `CONNECTED`, otherwise
delegates to `PyQuotexClient.ping`, with any exception translated to
`False` (ping itself already catches them). Result: (health boolean,
whether the session was pinged). -/
def check_connection (s : ConnectionState) (dry_run : Bool)
    (outcome : SessionPingOutcome) : Bool × Bool :=
  if s ≠ ConnectionState.CONNECTED then (false, false)
  else PyQuotexClient.ping s dry_run outcome

/-- A configuration violating the spec constraint `multiplier > 1` while
passing every check the code makes (dry run, so credentials are not
required). -/
def cfgMultiplierOne : QuotexConfig :=
  { defaultConfig with dry_run := true, reconnect_exponential_base := 1 }

/-- A configuration violating the spec constraint `max_delay >= base_delay`
while passing every check the code makes. -/
def cfgMaxBelowBase : QuotexConfig :=
  { defaultConfig with dry_run := true, reconnect_base_delay := 200,
                       reconnect_max_delay := 100 }

/-- A configuration with `reconnect_base_delay = 0`, rejected by
`validate`. -/
def cfgZeroBase : QuotexConfig :=
  { defaultConfig with dry_run := true, reconnect_base_delay := 0 }

/-- A request with an attached result future, used in concrete queue
executions. -/
def reqWithFuture : Request :=
  { request_id := "req-0", has_future := true }

/-- The watchdog statistics right after `start()`: running, no failures, no
reconnects. -/
def watchdogAfterStart : WatchdogState := {}

/-- The queue state right after `start()`: workers running, nothing queued. -/
def startedQueue : QueueState := { running := true }

/-- A started queue holding one pending request with a future. -/
def queueOneRequest : QueueState := { running := true, queue := [reqWithFuture] }

/-- Fifty identical balance requests, as in the batch scenario. -/
def fiftyRequests : List Request := List.replicate 50 reqWithFuture

/-- Fifty successful client-call outcomes for the batch scenario. -/
def fiftyOutcomes : List OpOutcome := List.replicate 50 (Except.ok "ok")

/-- A running watchdog that has seen two consecutive failures. -/
def watchdogTwoFailures : WatchdogState := { consecutive_failures := 2 }

/-- A running watchdog that has seen one failure. -/
def watchdogOneFailure : WatchdogState := { consecutive_failures := 1 }

/-- The default configuration with `reconnect_max_retries := 3`. -/
def cfgRetry3 : QuotexConfig := { defaultConfig with reconnect_max_retries := 3 }

/-- Claim C3: for every attempt count `a`, the backoff delay equals
`min(base_delay * multiplier^a, max_delay)` with `a` zero-based, and with
base_delay=1.0, multiplier=2.0, max_delay=300.0 (the defaults) the delays
at attempts 0, 1, 5, 10 are 1.0, 2.0, 32.0 and 300.0, the last capped from
an uncapped value of 1024. -/
theorem backoff_delay_matches_spec :
    (∀ (c : QuotexConfig) (a : ℕ),
        calculate_backoff_delay c a = spec_backoff_delay c a) ∧
    calculate_backoff_delay defaultConfig 0 = 1 ∧
    calculate_backoff_delay defaultConfig 1 = 2 ∧
    calculate_backoff_delay defaultConfig 5 = 32 ∧
    calculate_backoff_delay defaultConfig 10 = 300 ∧
    defaultConfig.reconnect_base_delay *
        defaultConfig.reconnect_exponential_base ^ (10 : ℕ) = 1024 := by
  refine ⟨fun c a => rfl, ?_, ?_, ?_, ?_, ?_⟩ <;>
    norm_num [calculate_backoff_delay, defaultConfig, min_def]

/-- Claim C4, counterexample: a configuration with multiplier 1 (violating
`multiplier > 1`) passes `validate` without any error, and so does one with
`max_delay < base_delay`. -/
theorem config_validate_counterexample :
    QuotexConfig.validate cfgMultiplierOne = Except.ok () ∧
    ¬ 1 < cfgMultiplierOne.reconnect_exponential_base ∧
    QuotexConfig.validate cfgMaxBelowBase = Except.ok () ∧
    cfgMaxBelowBase.reconnect_max_delay < cfgMaxBelowBase.reconnect_base_delay := by
  refine ⟨?_, ?_, ?_, ?_⟩ <;>
    norm_num [QuotexConfig.validate, cfgMultiplierOne, cfgMaxBelowBase,
      defaultConfig]

/-- Claim C4, amended: `validate` raises on `reconnect_base_delay <= 0`,
but the constraints `multiplier > 1` and `max_delay >= base_delay` are not
checked at all; `validate` succeeds exactly when credentials are present
(or dry run), `ping_interval` and `reconnect_base_delay` are positive, and
`min_payout` lies in [0, 100]. -/
theorem config_validate_behaviour :
    (∀ c : QuotexConfig, c.reconnect_base_delay ≤ 0 →
        c.validate ≠ Except.ok ()) ∧
    (∀ c : QuotexConfig, c.validate = Except.ok () ↔
        ((c.dry_run = true ∨ (c.email ≠ "" ∧ c.password ≠ "")) ∧
         0 < c.ping_interval ∧ 0 < c.reconnect_base_delay ∧
         0 ≤ c.min_payout ∧ c.min_payout ≤ 100)) := by
  constructor
  · intro c h
    unfold QuotexConfig.validate
    split_ifs <;> simp
  · intro c
    unfold QuotexConfig.validate
    split_ifs with h1 h2 h3 h4
    · simp only [reduceCtorEq, false_iff]
      intro hR
      rcases h1 with ⟨hd, hep⟩
      rcases hR.1 with hdt | ⟨he, hp⟩
      · rw [hd] at hdt; exact Bool.false_ne_true hdt
      · rcases hep with h | h
        · exact he h
        · exact hp h
    · simp only [reduceCtorEq, false_iff]
      intro hR
      exact absurd hR.2.1 (not_lt.mpr h2)
    · simp only [reduceCtorEq, false_iff]
      intro hR
      exact absurd hR.2.2.1 (not_lt.mpr h3)
    · simp only [reduceCtorEq, false_iff]
      intro hR
      rcases h4 with h | h
      · exact absurd hR.2.2.2.1 (not_le.mpr h)
      · exact absurd hR.2.2.2.2 (not_le.mpr h)
    · simp only [true_iff]
      push_neg at h2 h3 h4
      refine ⟨?_, h2, h3, h4.1, h4.2⟩
      by_cases hd : c.dry_run = true
      · exact Or.inl hd
      · right
        have hdf : c.dry_run = false := by
          cases hv : c.dry_run
          · rfl
          · exact absurd hv hd
        by_cases he : c.email = ""
        · exact absurd ⟨hdf, Or.inl he⟩ h1
        · by_cases hp : c.password = ""
          · exact absurd ⟨hdf, Or.inr hp⟩ h1
          · exact ⟨he, hp⟩

/-- Claim C4, witness for the amended theorem: `defaultConfig` with
`dry_run := true` and `reconnect_base_delay := 0` is rejected, and the
validation characterisation holds at that configuration. -/
theorem config_validate_behaviour_witness :
    cfgZeroBase.reconnect_base_delay ≤ 0 ∧
    cfgZeroBase.validate ≠ Except.ok () ∧
    (cfgMultiplierOne.validate = Except.ok () ↔
        ((cfgMultiplierOne.dry_run = true ∨
            (cfgMultiplierOne.email ≠ "" ∧ cfgMultiplierOne.password ≠ "")) ∧
         0 < cfgMultiplierOne.ping_interval ∧
         0 < cfgMultiplierOne.reconnect_base_delay ∧
         0 ≤ cfgMultiplierOne.min_payout ∧ cfgMultiplierOne.min_payout ≤ 100)) :=
  ⟨by norm_num [cfgZeroBase, defaultConfig],
   config_validate_behaviour.1 _ (by norm_num [cfgZeroBase, defaultConfig]),
   config_validate_behaviour.2 cfgMultiplierOne⟩

/-- Claim C2, counterexample: with `wait_for_response = true`, an accepted
request whose result wait times out yields a synthetic failed `Response`
whose error is "Queue full", not "timeout". -/
theorem submit_timeout_counterexample :
    submit_request "r1" RequestType.GET_BALANCE true false ResultWait.timedOut =
      Except.ok (Sum.inr
        { request_id := "r1", request_type := RequestType.GET_BALANCE,
          success := false, data := none, error := some "Queue full" }) ∧
    (some "Queue full" : Option String) ≠ some "timeout" :=
  ⟨rfl, by decide⟩

/-- Claim C2, amended: with `wait_for_response = true`, a timeout (of the
result wait, or of the enqueue itself) returns a synthetic failed
`Response` with error "Queue full" rather than raising; with
`wait_for_response = false`, a timeout on the enqueue is raised to the
caller, a distinct queue-full failure mode; an accepted request whose
future resolves returns that response, and a fire-and-forget accepted
request returns the request id. -/
theorem submit_request_timeout_behaviour (id : String) (rt : RequestType) :
    submit_request id rt true false ResultWait.timedOut =
      Except.ok (Sum.inr
        { request_id := id, request_type := rt, success := false,
          error := some "Queue full" }) ∧
    (∀ rw, submit_request id rt true true rw =
      Except.ok (Sum.inr
        { request_id := id, request_type := rt, success := false,
          error := some "Queue full" })) ∧
    (∀ rw, submit_request id rt false true rw = Except.error "TimeoutError") ∧
    (∀ resp, submit_request id rt true false (ResultWait.resolved resp) =
      Except.ok (Sum.inr resp)) ∧
    (∀ rw, submit_request id rt false false rw = Except.ok (Sum.inl id)) := by
  refine ⟨rfl, fun rw => rfl, fun rw => rfl, fun resp => rfl, fun rw => rfl⟩

/-- Claim C5: after any watchdog event, `consecutive_failures` is 0 exactly
when the event is a successful probe or a successful reconnection (the
sequence triggered by a failing probe, or a forced reconnect), and never
resets on any other event; and after `n` consecutive failed probes (all
reconnection attempts failing) from a fresh watchdog its value is `n`. -/
theorem consecutive_failures_reset_exactly (c : QuotexConfig)
    (st : WatchdogState) (e : WatchdogEvent) (n : ℕ)
    (h : 0 < st.consecutive_failures) :
    (((applyWatchdogEvent c st e).consecutive_failures = 0) ↔
      eventResets c e = true) ∧
    (runFailingProbes c watchdogAfterStart n).consecutive_failures = n := by
  have key : ∀ (m : ℕ) (st' : WatchdogState),
      (runFailingProbes c st' m).consecutive_failures =
        st'.consecutive_failures + m := by
    intro m
    induction m with
    | zero => intro st'; simp [runFailingProbes]
    | succ k ih =>
      intro st'
      rw [runFailingProbes, ih]
      simp only [applyWatchdogEvent, handle_disconnect,
        reconnectAttempts_allFail_success, if_false, Bool.false_eq_true]
      omega
  constructor
  · cases e with
    | probe ok connectOk =>
      cases ok
      · simp only [applyWatchdogEvent, eventResets]
        cases hs : (handle_disconnect c connectOk).2.2
        · simp only [hs, Bool.false_eq_true, if_false]
          constructor
          · intro h0; omega
          · intro h0; exact absurd h0 (by simp)
        · simp [hs]
      · simp [applyWatchdogEvent, eventResets]
    | force ok =>
      cases ok
      · simp only [applyWatchdogEvent, eventResets]
        constructor
        · intro h0; omega
        · intro h0; exact absurd h0 (by simp)
      · simp [applyWatchdogEvent, eventResets]
    | loopError =>
      simp only [applyWatchdogEvent, eventResets]
      constructor
      · intro h0; omega
      · intro h0; exact absurd h0 (by simp)
  · simpa [watchdogAfterStart] using key n watchdogAfterStart

/-- Claim C5, witness: from `consecutive_failures = 2`, a successful probe
resets the counter exactly as `eventResets` says, and 4 failed probes from
a fresh watchdog leave the counter at 4. -/
theorem consecutive_failures_reset_exactly_witness :
    0 < watchdogTwoFailures.consecutive_failures ∧
    ((((applyWatchdogEvent defaultConfig watchdogTwoFailures
          (WatchdogEvent.probe true (fun _ => false))).consecutive_failures = 0) ↔
        eventResets defaultConfig
          (WatchdogEvent.probe true (fun _ => false)) = true) ∧
      (runFailingProbes defaultConfig watchdogAfterStart
          4).consecutive_failures = 4) :=
  ⟨by decide,
   consecutive_failures_reset_exactly defaultConfig _ _ 4 (by decide)⟩

/-- Claim C6: with `reconnect_max_retries = 3` and connect always failing,
the reconnection sequence makes exactly 3 connect attempts, preceded by
backoff sleeps of delay(0), delay(1), delay(2) respectively, then reports
exhaustion; the enclosing monitor tick leaves `total_reconnects` unchanged,
leaves `consecutive_failures` elevated (incremented by the failed probe),
and does not terminate the monitor (`running` unchanged). -/
theorem reconnect_exhaustion_after_three (c : QuotexConfig)
    (st : WatchdogState) (h : c.reconnect_max_retries = 3) :
    handle_disconnect c (fun _ => false) =
      ([calculate_backoff_delay c 0, calculate_backoff_delay c 1,
        calculate_backoff_delay c 2], 3, false) ∧
    exhaustionReported c (fun _ => false) = true ∧
    (applyWatchdogEvent c st
        (WatchdogEvent.probe false (fun _ => false))).total_reconnects =
      st.total_reconnects ∧
    (applyWatchdogEvent c st
        (WatchdogEvent.probe false (fun _ => false))).consecutive_failures =
      st.consecutive_failures + 1 ∧
    (applyWatchdogEvent c st
        (WatchdogEvent.probe false (fun _ => false))).running = st.running := by
  have hd : handle_disconnect c (fun _ => false) =
      ([calculate_backoff_delay c 0, calculate_backoff_delay c 1,
        calculate_backoff_delay c 2], 3, false) := by
    unfold handle_disconnect
    rw [h]
    simp [reconnectAttempts]
  refine ⟨hd, ?_, ?_, ?_, ?_⟩ <;>
    simp [exhaustionReported, applyWatchdogEvent, hd, h]

/-- Claim C6, witness: the default configuration with
`reconnect_max_retries := 3` and a monitor state with one prior failure. -/
theorem reconnect_exhaustion_after_three_witness :
    cfgRetry3.reconnect_max_retries = 3 ∧
    (handle_disconnect cfgRetry3 (fun _ => false) =
      ([calculate_backoff_delay cfgRetry3 0, calculate_backoff_delay cfgRetry3 1,
        calculate_backoff_delay cfgRetry3 2], 3, false) ∧
     exhaustionReported cfgRetry3 (fun _ => false) = true ∧
     (applyWatchdogEvent cfgRetry3 watchdogOneFailure
        (WatchdogEvent.probe false (fun _ => false))).total_reconnects =
      watchdogOneFailure.total_reconnects ∧
     (applyWatchdogEvent cfgRetry3 watchdogOneFailure
        (WatchdogEvent.probe false (fun _ => false))).consecutive_failures =
      watchdogOneFailure.consecutive_failures + 1 ∧
     (applyWatchdogEvent cfgRetry3 watchdogOneFailure
        (WatchdogEvent.probe false (fun _ => false))).running =
      watchdogOneFailure.running) :=
  ⟨rfl, reconnect_exhaustion_after_three _ _ rfl⟩

/-- Claim C7: `connect()` returns success immediately without touching the
session when already Connected; otherwise its first state assignment is
Connecting, it calls `Session.connect` when not in dry-run mode, succeeds
exactly when the session connect succeeds (or in dry-run mode), ends
Connected when returning true and Disconnected when returning false
(including when the session raised). -/
theorem connect_state_machine (s : ConnectionState) (dry : Bool)
    (o : SessionConnectOutcome) (hne : s ≠ ConnectionState.CONNECTED) :
    (∀ (dry' : Bool) (o' : SessionConnectOutcome),
        PyQuotexClient.connect ConnectionState.CONNECTED dry' o' =
          { finalState := ConnectionState.CONNECTED, success := true,
            sessionCalled := false, assigned := [] }) ∧
    (PyQuotexClient.connect s dry o).assigned.head? =
      some ConnectionState.CONNECTING ∧
    ((PyQuotexClient.connect s dry o).success = true ↔
      (dry = true ∨ o = SessionConnectOutcome.ok)) ∧
    ((PyQuotexClient.connect s dry o).success = true →
      (PyQuotexClient.connect s dry o).finalState = ConnectionState.CONNECTED) ∧
    ((PyQuotexClient.connect s dry o).success = false →
      (PyQuotexClient.connect s dry o).finalState =
        ConnectionState.DISCONNECTED) ∧
    (dry = false → (PyQuotexClient.connect s dry o).sessionCalled = true) := by
  refine ⟨fun dry' o' => by simp [PyQuotexClient.connect], ?_⟩
  unfold PyQuotexClient.connect
  rw [if_neg hne]
  cases dry <;> cases o <;> simp

/-- Claim C7, witness: connecting from Disconnected in non-dry-run mode
with a failing session connect. -/
theorem connect_state_machine_witness :
    ConnectionState.DISCONNECTED ≠ ConnectionState.CONNECTED ∧
    ((∀ (dry' : Bool) (o' : SessionConnectOutcome),
        PyQuotexClient.connect ConnectionState.CONNECTED dry' o' =
          { finalState := ConnectionState.CONNECTED, success := true,
            sessionCalled := false, assigned := [] }) ∧
     (PyQuotexClient.connect ConnectionState.DISCONNECTED false
        (SessionConnectOutcome.failed "bad credentials")).assigned.head? =
       some ConnectionState.CONNECTING ∧
     ((PyQuotexClient.connect ConnectionState.DISCONNECTED false
        (SessionConnectOutcome.failed "bad credentials")).success = true ↔
       (false = true ∨ SessionConnectOutcome.failed "bad credentials" =
         SessionConnectOutcome.ok)) ∧
     ((PyQuotexClient.connect ConnectionState.DISCONNECTED false
        (SessionConnectOutcome.failed "bad credentials")).success = true →
       (PyQuotexClient.connect ConnectionState.DISCONNECTED false
        (SessionConnectOutcome.failed "bad credentials")).finalState =
         ConnectionState.CONNECTED) ∧
     ((PyQuotexClient.connect ConnectionState.DISCONNECTED false
        (SessionConnectOutcome.failed "bad credentials")).success = false →
       (PyQuotexClient.connect ConnectionState.DISCONNECTED false
        (SessionConnectOutcome.failed "bad credentials")).finalState =
         ConnectionState.DISCONNECTED) ∧
     (false = false →
       (PyQuotexClient.connect ConnectionState.DISCONNECTED false
        (SessionConnectOutcome.failed "bad credentials")).sessionCalled =
         true)) :=
  ⟨by decide, connect_state_machine _ _ _ (by decide)⟩

/-- Claim C8: for every state other than Connected, both
`PyQuotexClient.ping` and the watchdog health check return false
immediately without pinging the session, and a ping operation never
changes the connection state. -/
theorem probe_false_when_not_connected (s : ConnectionState) (dry : Bool)
    (o : SessionPingOutcome) (hne : s ≠ ConnectionState.CONNECTED) :
    PyQuotexClient.ping s dry o = (false, false) ∧
    check_connection s dry o = (false, false) ∧
    (∀ (s' : ConnectionState) (dry' : Bool) (o' : SessionPingOutcome),
        applyClientOp s' (ClientOp.ping dry' o') = (s', [])) := by
  refine ⟨?_, ?_, fun s' dry' o' => rfl⟩
  · simp [PyQuotexClient.ping, hne]
  · simp [check_connection, hne]

/-- Claim C8, witness: a probe from Disconnected. -/
theorem probe_false_when_not_connected_witness :
    ConnectionState.DISCONNECTED ≠ ConnectionState.CONNECTED ∧
    (PyQuotexClient.ping ConnectionState.DISCONNECTED false
        SessionPingOutcome.balance = (false, false) ∧
     check_connection ConnectionState.DISCONNECTED false
        SessionPingOutcome.balance = (false, false) ∧
     (∀ (s' : ConnectionState) (dry' : Bool) (o' : SessionPingOutcome),
        applyClientOp s' (ClientOp.ping dry' o') = (s', []))) :=
  ⟨by decide, probe_false_when_not_connected _ _ _ (by decide)⟩

theorem visited_no_reconnecting :
    ∀ (ops : List ClientOp) (s : ConnectionState),
      s ≠ ConnectionState.RECONNECTING →
      ConnectionState.RECONNECTING ∉ clientStatesVisited s ops := by
  intro ops
  induction ops with
  | nil =>
    intro s hs
    simp only [clientStatesVisited, List.mem_singleton]
    exact Ne.symm hs
  | cons op rest ih =>
    intro s hs
    have hop : (applyClientOp s op).1 ≠ ConnectionState.RECONNECTING ∧
        ConnectionState.RECONNECTING ∉ (applyClientOp s op).2 := by
      cases op with
      | connect dry o =>
        cases o <;> simp only [applyClientOp, PyQuotexClient.connect] <;>
          split_ifs <;> simp_all
      | disconnect =>
        simp only [applyClientOp, PyQuotexClient.disconnect]
        split_ifs <;> simp_all
      | ping dry o => exact ⟨hs, by simp [applyClientOp]⟩
    intro hmem
    rw [clientStatesVisited] at hmem
    rcases List.mem_cons.mp hmem with h | h
    · exact hs h.symm
    · rcases List.mem_append.mp h with h2 | h2
      · exact hop.2 h2
      · exact ih _ hop.1 h2

theorem runClientOps_mem_visited :
    ∀ (ops : List ClientOp) (s : ConnectionState),
      runClientOps s ops ∈ clientStatesVisited s ops := by
  intro ops
  induction ops with
  | nil => intro s; simp [runClientOps, clientStatesVisited]
  | cons op rest ih =>
    intro s
    rw [runClientOps, clientStatesVisited]
    exact List.mem_cons_of_mem _
      (List.mem_append_right _ (ih (applyClientOp s op).1))

/-- Claim C10: starting from Disconnected, no sequence of connect,
disconnect and ping operations ever assigns Reconnecting: it appears
neither among the values `_state` ever holds nor as the final state. -/
theorem reconnecting_unreachable (ops : List ClientOp) :
    ConnectionState.RECONNECTING ∉
      clientStatesVisited ConnectionState.DISCONNECTED ops ∧
    runClientOps ConnectionState.DISCONNECTED ops ≠
      ConnectionState.RECONNECTING := by
  have hv := visited_no_reconnecting ops ConnectionState.DISCONNECTED
    (by simp)
  refine ⟨hv, fun hfin => hv ?_⟩
  rw [← hfin]
  exact runClientOps_mem_visited ops ConnectionState.DISCONNECTED

/-- Claim C10, witness: a concrete operation sequence with a successful
connect, a ping and a disconnect. -/
theorem reconnecting_unreachable_witness :
    ConnectionState.RECONNECTING ∉
      clientStatesVisited ConnectionState.DISCONNECTED
        [ClientOp.connect false SessionConnectOutcome.ok,
         ClientOp.ping false SessionPingOutcome.balance,
         ClientOp.disconnect] ∧
    runClientOps ConnectionState.DISCONNECTED
        [ClientOp.connect false SessionConnectOutcome.ok,
         ClientOp.ping false SessionPingOutcome.balance,
         ClientOp.disconnect] ≠
      ConnectionState.RECONNECTING :=
  reconnecting_unreachable _

theorem runQueue_append (c : QuotexConfig) :
    ∀ (a b : List QueueEvent) (st : QueueState),
      runQueue c st (a ++ b) = runQueue c (runQueue c st a) b := by
  intro a
  induction a with
  | nil => intro b st; rfl
  | cons e rest ih =>
    intro b st
    simp only [List.cons_append, runQueue]
    exact ih b _

theorem workerStep_characterization (c : QuotexConfig) (st : QueueState)
    (r : Request) (rest : List Request) (o : OpOutcome) (cb : Bool)
    (hrun : st.running = true) (hq : st.queue = r :: rest) :
    applyQueueEvent c st (QueueEvent.workerStep o cb) =
      { st with
        queue := rest,
        processed_count := if (process_request r o).success = true then
          st.processed_count + 1 else st.processed_count,
        failed_count := if (process_request r o).success = true then
          st.failed_count else st.failed_count + 1,
        responses := st.responses ++ [process_request r o] } := by
  simp [applyQueueEvent, hrun, hq]

theorem runQueue_enqueueAll (c : QuotexConfig) :
    ∀ (reqs : List Request) (st : QueueState),
      st.queue.length + reqs.length ≤ c.request_queue_maxsize →
      runQueue c st (reqs.map QueueEvent.enqueue) =
        { st with queue := st.queue ++ reqs,
                  accepted := st.accepted ++ reqs.map Request.request_id } := by
  intro reqs
  induction reqs with
  | nil => intro st h; simp [runQueue]
  | cons r rest ih =>
    intro st h
    have hlt : st.queue.length < c.request_queue_maxsize := by
      simp only [List.length_cons] at h
      omega
    simp only [List.map_cons, runQueue, applyQueueEvent, if_pos hlt]
    rw [ih _ (by simp only [List.length_append, List.length_cons,
      List.length_nil] at h ⊢ ; omega)]
    simp

theorem runQueue_processAll (c : QuotexConfig) :
    ∀ (outs : List OpOutcome) (st : QueueState),
      st.running = true →
      st.queue.length = outs.length →
      (runQueue c st
          (outs.map (fun o => QueueEvent.workerStep o false))).queue = [] ∧
      (runQueue c st
          (outs.map (fun o => QueueEvent.workerStep o false))).processed_count +
        (runQueue c st
          (outs.map (fun o => QueueEvent.workerStep o false))).failed_count =
        st.processed_count + st.failed_count + outs.length ∧
      (runQueue c st
          (outs.map (fun o => QueueEvent.workerStep o false))).responses.length =
        st.responses.length + outs.length := by
  intro outs
  induction outs with
  | nil =>
    intro st hrun hlen
    refine ⟨List.length_eq_zero.mp hlen, by simp [runQueue], by simp [runQueue]⟩
  | cons o os ih =>
    intro st hrun hlen
    obtain ⟨r, rest, hq⟩ : ∃ r rest, st.queue = r :: rest := by
      cases hqe : st.queue with
      | nil => rw [hqe] at hlen; simp at hlen
      | cons a b => exact ⟨a, b, rfl⟩
    have hlen2 : rest.length = os.length := by
      rw [hq] at hlen
      simpa using hlen
    have step := workerStep_characterization c st r rest o false hrun hq
    simp only [List.map_cons, runQueue, step]
    obtain ⟨ih1, ih2, ih3⟩ := ih
      { st with
        queue := rest,
        processed_count := if (process_request r o).success = true then
          st.processed_count + 1 else st.processed_count,
        failed_count := if (process_request r o).success = true then
          st.failed_count else st.failed_count + 1,
        responses := st.responses ++ [process_request r o] }
      (by simp [hrun]) (by simpa using hlen2)
    refine ⟨ih1, ?_, ?_⟩
    · rw [ih2]
      simp only [List.length_cons]
      cases hsucc : (process_request r o).success <;> simp [hsucc] <;> omega
    · rw [ih3]
      simp only [List.length_append, List.length_cons, List.length_nil]
      omega

theorem runQueue_stopped_frozen (c : QuotexConfig) :
    ∀ (evts : List QueueEvent) (st : QueueState),
      st.running = false → QueueEvent.start ∉ evts →
      (runQueue c st evts).responses = st.responses ∧
      (runQueue c st evts).running = false := by
  intro evts
  induction evts with
  | nil => intro st h _; exact ⟨rfl, h⟩
  | cons e rest ih =>
    intro st h hn
    have hn2 : QueueEvent.start ∉ rest := fun hm => hn (List.mem_cons_of_mem _ hm)
    have hpres : (applyQueueEvent c st e).responses = st.responses ∧
        (applyQueueEvent c st e).running = false := by
      cases e with
      | start => exact absurd (List.mem_cons_self _ _) hn
      | stop => exact ⟨rfl, rfl⟩
      | enqueue r =>
        simp only [applyQueueEvent]
        split_ifs <;> simp [h]
      | workerStep o cb =>
        simp [applyQueueEvent, h]
    rw [runQueue]
    obtain ⟨ihr, ihf⟩ := ih _ hpres.2 hn2
    rw [ihr, hpres.1]
    exact ⟨rfl, ihf⟩

/-- Claim C1, counterexample: a request with a result future is accepted
into the queue, then the queue is stopped; the system ends stopped with
the request still queued, zero responses produced, and a worker step after
the stop is a no-op, so the accepted request never receives a Response:
its future is silently dropped. -/
theorem accepted_request_dropped_counterexample :
    (runQueue defaultConfig initialQueueState
      [QueueEvent.start, QueueEvent.enqueue reqWithFuture,
       QueueEvent.stop]).running = false ∧
    (runQueue defaultConfig initialQueueState
      [QueueEvent.start, QueueEvent.enqueue reqWithFuture,
       QueueEvent.stop]).accepted = ["req-0"] ∧
    reqWithFuture.has_future = true ∧
    (runQueue defaultConfig initialQueueState
      [QueueEvent.start, QueueEvent.enqueue reqWithFuture,
       QueueEvent.stop]).responses = [] ∧
    applyQueueEvent defaultConfig
      (runQueue defaultConfig initialQueueState
        [QueueEvent.start, QueueEvent.enqueue reqWithFuture, QueueEvent.stop])
      (QueueEvent.workerStep (Except.ok "data") false) =
    runQueue defaultConfig initialQueueState
      [QueueEvent.start, QueueEvent.enqueue reqWithFuture, QueueEvent.stop] :=
  ⟨rfl, rfl, rfl, rfl, rfl⟩

/-- Claim C1, amended: every request dequeued and fully processed by a
running worker yields exactly one Response (appended to the produced
responses, delivered to its callback/future); but `stop()` does not drain
or explicitly fail outstanding items: requests still queued when the queue
is stopped receive no Response — once stopped, no sequence of events that
does not restart the queue ever produces another response. -/
theorem worker_single_delivery_and_stop_drop (c : QuotexConfig)
    (st st' : QueueState) (r : Request) (rest : List Request) (o : OpOutcome)
    (cb : Bool) (evts : List QueueEvent)
    (hrun : st.running = true) (hq : st.queue = r :: rest)
    (hstop : st'.running = false) (hns : QueueEvent.start ∉ evts) :
    (applyQueueEvent c st (QueueEvent.workerStep o cb)).responses =
      st.responses ++ [process_request r o] ∧
    (applyQueueEvent c st (QueueEvent.workerStep o cb)).queue = rest ∧
    (runQueue c st' evts).responses = st'.responses := by
  have step := workerStep_characterization c st r rest o cb hrun hq
  refine ⟨by rw [step], by rw [step], (runQueue_stopped_frozen c evts st' hstop hns).1⟩

/-- Claim C1, witness for the amended theorem: a running queue with one
pending request delivers exactly one response for it, and a fresh stopped
queue produces no responses over an enqueue followed by a stop. -/
theorem worker_single_delivery_and_stop_drop_witness :
    queueOneRequest.running = true ∧
    initialQueueState.running = false ∧
    ((applyQueueEvent defaultConfig queueOneRequest
        (QueueEvent.workerStep (Except.ok "data") false)).responses =
      queueOneRequest.responses ++
        [process_request reqWithFuture (Except.ok "data")] ∧
     (applyQueueEvent defaultConfig queueOneRequest
        (QueueEvent.workerStep (Except.ok "data") false)).queue = [] ∧
     (runQueue defaultConfig initialQueueState
        [QueueEvent.enqueue reqWithFuture, QueueEvent.stop]).responses =
      initialQueueState.responses) :=
  ⟨rfl, rfl,
   worker_single_delivery_and_stop_drop defaultConfig queueOneRequest
     initialQueueState reqWithFuture [] (Except.ok "data") false
     [QueueEvent.enqueue reqWithFuture, QueueEvent.stop]
     rfl rfl rfl (by simp)⟩

/-- Claim C9: per completed request, exactly one of
`processed_count`/`failed_count` increments, chosen by the Response's
success flag (an operation failure yields a failed Response and increments
`failed_count`; the worker keeps running; a callback error affects nothing,
as the step result does not depend on whether the callback raises); and
after a started queue accepts 50 requests (capacity 100) and workers
complete all of them, `processed_count + failed_count = 50` and the queue
depth is 0. -/
theorem counters_per_request_and_batch (c : QuotexConfig) (st : QueueState)
    (r : Request) (rest : List Request) (o : OpOutcome) (cb cb' : Bool)
    (reqs : List Request) (outs : List OpOutcome)
    (hrun : st.running = true) (hq : st.queue = r :: rest)
    (hreqs : reqs.length = 50) (houts : outs.length = 50) :
    (applyQueueEvent c st (QueueEvent.workerStep o cb)).processed_count +
      (applyQueueEvent c st (QueueEvent.workerStep o cb)).failed_count =
      st.processed_count + st.failed_count + 1 ∧
    ((process_request r o).success = true →
      (applyQueueEvent c st (QueueEvent.workerStep o cb)).processed_count =
        st.processed_count + 1 ∧
      (applyQueueEvent c st (QueueEvent.workerStep o cb)).failed_count =
        st.failed_count) ∧
    ((process_request r o).success = false →
      (applyQueueEvent c st (QueueEvent.workerStep o cb)).failed_count =
        st.failed_count + 1 ∧
      (applyQueueEvent c st (QueueEvent.workerStep o cb)).processed_count =
        st.processed_count) ∧
    (∀ e : String, (process_request r (Except.error e)).success = false) ∧
    (∀ d : String, (process_request r (Except.ok d)).success = true) ∧
    (applyQueueEvent c st (QueueEvent.workerStep o cb)).running = st.running ∧
    applyQueueEvent c st (QueueEvent.workerStep o cb) =
      applyQueueEvent c st (QueueEvent.workerStep o cb') ∧
    (runQueue defaultConfig initialQueueState
        (QueueEvent.start :: (reqs.map QueueEvent.enqueue ++
          outs.map (fun oo => QueueEvent.workerStep oo false)))).processed_count +
      (runQueue defaultConfig initialQueueState
        (QueueEvent.start :: (reqs.map QueueEvent.enqueue ++
          outs.map (fun oo => QueueEvent.workerStep oo false)))).failed_count =
      50 ∧
    (runQueue defaultConfig initialQueueState
        (QueueEvent.start :: (reqs.map QueueEvent.enqueue ++
          outs.map (fun oo => QueueEvent.workerStep oo false)))).queue = [] := by
  have step := workerStep_characterization c st r rest o cb hrun hq
  have hcap : startedQueue.queue.length + reqs.length ≤
      defaultConfig.request_queue_maxsize := by
    simp [startedQueue, defaultConfig, hreqs]
  have h1 : runQueue defaultConfig initialQueueState
      (QueueEvent.start :: (reqs.map QueueEvent.enqueue ++
        outs.map (fun oo => QueueEvent.workerStep oo false))) =
      runQueue defaultConfig
        (runQueue defaultConfig startedQueue (reqs.map QueueEvent.enqueue))
        (outs.map (fun oo => QueueEvent.workerStep oo false)) := by
    rw [runQueue, runQueue_append,
      show applyQueueEvent defaultConfig initialQueueState QueueEvent.start =
        startedQueue from rfl]
  rw [runQueue_enqueueAll defaultConfig reqs startedQueue hcap] at h1
  obtain ⟨hb1, hb2, -⟩ := runQueue_processAll defaultConfig outs
    { startedQueue with
      queue := startedQueue.queue ++ reqs,
      accepted := startedQueue.accepted ++ reqs.map Request.request_id }
    (by simp [startedQueue]) (by simp [startedQueue, hreqs, houts])
  refine ⟨?_, ?_, ?_, fun e => rfl, fun d => rfl, by rw [step], rfl, ?_, ?_⟩
  · rw [step]
    cases hsucc : (process_request r o).success <;> simp [hsucc] <;> omega
  · intro hsucc
    rw [step]
    simp [hsucc]
  · intro hsucc
    rw [step]
    simp [hsucc]
  · rw [h1, hb2]
    simp [startedQueue, houts]
  · rw [h1]
    exact hb1

/-- Claim C9, witness: a running queue with one pending request processed
with a failing outcome, and the 50-request batch with all calls
succeeding. -/
theorem counters_per_request_and_batch_witness :
    queueOneRequest.running = true ∧
    queueOneRequest.queue = reqWithFuture :: [] ∧
    fiftyRequests.length = 50 ∧
    fiftyOutcomes.length = 50 ∧
    ((applyQueueEvent defaultConfig queueOneRequest
        (QueueEvent.workerStep (Except.error "Not connected") true)).processed_count +
      (applyQueueEvent defaultConfig queueOneRequest
        (QueueEvent.workerStep (Except.error "Not connected") true)).failed_count =
      queueOneRequest.processed_count + queueOneRequest.failed_count + 1 ∧
     ((process_request reqWithFuture (Except.error "Not connected")).success = true →
       (applyQueueEvent defaultConfig queueOneRequest
          (QueueEvent.workerStep (Except.error "Not connected") true)).processed_count =
         queueOneRequest.processed_count + 1 ∧
       (applyQueueEvent defaultConfig queueOneRequest
          (QueueEvent.workerStep (Except.error "Not connected") true)).failed_count =
         queueOneRequest.failed_count) ∧
     ((process_request reqWithFuture (Except.error "Not connected")).success = false →
       (applyQueueEvent defaultConfig queueOneRequest
          (QueueEvent.workerStep (Except.error "Not connected") true)).failed_count =
         queueOneRequest.failed_count + 1 ∧
       (applyQueueEvent defaultConfig queueOneRequest
          (QueueEvent.workerStep (Except.error "Not connected") true)).processed_count =
         queueOneRequest.processed_count) ∧
     (∀ e : String,
       (process_request reqWithFuture (Except.error e)).success = false) ∧
     (∀ d : String,
       (process_request reqWithFuture (Except.ok d)).success = true) ∧
     (applyQueueEvent defaultConfig queueOneRequest
        (QueueEvent.workerStep (Except.error "Not connected") true)).running =
       queueOneRequest.running ∧
     applyQueueEvent defaultConfig queueOneRequest
        (QueueEvent.workerStep (Except.error "Not connected") true) =
       applyQueueEvent defaultConfig queueOneRequest
        (QueueEvent.workerStep (Except.error "Not connected") false) ∧
     (runQueue defaultConfig initialQueueState
        (QueueEvent.start :: (fiftyRequests.map QueueEvent.enqueue ++
          fiftyOutcomes.map (fun oo => QueueEvent.workerStep oo false)))).processed_count +
       (runQueue defaultConfig initialQueueState
        (QueueEvent.start :: (fiftyRequests.map QueueEvent.enqueue ++
          fiftyOutcomes.map (fun oo => QueueEvent.workerStep oo false)))).failed_count =
       50 ∧
     (runQueue defaultConfig initialQueueState
        (QueueEvent.start :: (fiftyRequests.map QueueEvent.enqueue ++
          fiftyOutcomes.map (fun oo => QueueEvent.workerStep oo false)))).queue = []) :=
  ⟨rfl, rfl, by simp [fiftyRequests], by simp [fiftyOutcomes],
   counters_per_request_and_batch defaultConfig queueOneRequest reqWithFuture []
     (Except.error "Not connected") true false fiftyRequests fiftyOutcomes
     rfl rfl (by simp [fiftyRequests]) (by simp [fiftyOutcomes])⟩

end PyquotexIntegration
